import Mathlib

/-!
# Verification of the IshyIG message-relay service

Shallow embedding of the Python source (`main.py`, `actions.py`,
`ManychatAPI.py`, `utils.py`): a FastAPI endpoint that validates an inbound
JSON payload, then (as a background task) drives an OpenAI assistant run and
relays its output to a ManyChat subscriber, dispatching `requires_action`
runs to side-effecting actions (assistant switch, bot shutdown).

External effects (HTTP calls to OpenAI / ManyChat, sleeps, logs) are
modelled as explicit events collected in a trace; the outcomes of external
calls are supplied as oracle parameters.
-/

namespace IshyIG

/-! ## JSON values and Python-dict semantics

A coarse model of the JSON values a payload field can hold, sufficient to
express Python truthiness and the equality tests the source performs.
Arrays and objects are represented only by their size (all the source does
with them is truthiness-test). -/

inductive JVal where
  | jnull
  | jbool (b : Bool)
  | jnum (n : Int)
  | jstr (s : String)
  | jarr (size : Nat)
  | jobj (size : Nat)
deriving DecidableEq, Repr

/-- Python truthiness of a JSON value (`bool(v)`). -/
def JVal.truthy : JVal → Bool
  | .jnull => false
  | .jbool b => b
  | .jnum n => n != 0
  | .jstr s => s != ""
  | .jarr n => n != 0
  | .jobj n => n != 0

/-- A parsed JSON object, as the ordered key/value pairs of its source text.
`json.loads` builds a Python dict from these, later pairs overriding
earlier ones. -/
def JObj := List (String × JVal)

/-- `dict.get(k)`: value of the *last* pair with key `k` (later duplicate
keys override earlier ones when the dict is built), `none` when absent. -/
def pyGet (d : JObj) (k : String) : Option JVal :=
  match d with
  | [] => none
  | (k2, v) :: rest =>
    match pyGet rest k with
    | some v2 => some v2
    | none => if k2 = k then some v else none

/-- `k in d` for a Python dict. -/
def hasKey (d : JObj) (k : String) : Bool :=
  (pyGet d k).isSome

/-! ## Request validation (`main.py` `validate_request_data` / `generate_response`)

```python
required_fields = ["thread_id", "assistant_id", "bot_filter_tag", "manychat_id"]
fields = {field: data.get(field) for field in required_fields}
missing_fields = [field for field in required_fields
                  if not fields[field] or fields[field] in ["", "null", None]]
if missing_fields: ... return None
return fields
```
`data.get(field)` yields Python `None` when the key is absent; we represent
that absent/None value as `JVal.jnull`. -/

def required_fields : List String :=
  ["thread_id", "assistant_id", "bot_filter_tag", "manychat_id"]

/-- `fields[field]` of the comprehension: `data.get(field)`, with absent
keys giving Python `None` (modelled `jnull`). -/
def fieldGet (d : JObj) (f : String) : JVal :=
  (pyGet d f).getD .jnull

/-- The per-field rejection test:
`not fields[field] or fields[field] in ["", "null", None]`. -/
def fieldMissing (v : JVal) : Bool :=
  !v.truthy || v = .jstr "" || v = .jstr "null" || v = .jnull

def missing_fields (d : JObj) : List String :=
  required_fields.filter (fun f => fieldMissing (fieldGet d f))

/-- The `fields` dict returned on success. -/
structure Validated where
  thread_id : JVal
  assistant_id : JVal
  bot_filter_tag : JVal
  manychat_id : JVal
deriving DecidableEq, Repr

/-- `validate_request_data`: `none` models the Python `return None`
(rejection), `some` returns the extracted fields. -/
def validate_request_data (d : JObj) : Option Validated :=
  if missing_fields d = [] then
    some ⟨fieldGet d "thread_id", fieldGet d "assistant_id",
          fieldGet d "bot_filter_tag", fieldGet d "manychat_id"⟩
  else
    none

/-- Outcome of the `/generateResponse` endpoint: whether the HTTP response
signals success, and the background task scheduled (if any). On a failed
validation the endpoint raises (an error response is produced) and
`background_tasks.add_task` is never reached. -/
structure GenResult where
  ok : Bool
  scheduled : Option Validated
deriving DecidableEq, Repr

/-- `generate_response` (`main.py`): validate, then either schedule the
background `advance_convo` task and answer success, or answer with an
error response and schedule nothing. -/
def generate_response (d : JObj) : GenResult :=
  match validate_request_data d with
  | none => ⟨false, none⟩
  | some v => ⟨true, some v⟩

/-! ## Citation stripping (`process_message_response`, both revisions)

```python
ai_content = ai_messages[-1].content[0].text.value
if "【" in ai_content and "】" in ai_content:
    ai_content = ai_content[:ai_content.find("【")] + ai_content[ai_content.find("】") + 1:]
```
Text is modelled as its list of Unicode code points (Python `str`
indexing/slicing is by code point). `str.find` returns the first index of
the character; it is only invoked under the containment guard, where
`pyFindIdx` below agrees with it. -/

/-- Index of the first occurrence of `c` (equals `length` when absent;
only used on lists containing `c`, where it matches Python `str.find`). -/
def pyFindIdx (c : Char) : List Char → Nat
  | [] => 0
  | x :: xs => if x = c then 0 else pyFindIdx c xs + 1

/-- The citation sanitization applied to the extracted message text. -/
def stripCitation (s : List Char) : List Char :=
  if '【' ∈ s ∧ '】' ∈ s then
    s.take (pyFindIdx '【' s) ++ s.drop (pyFindIdx '】' s + 1)
  else
    s

/-! ## ManyChat API client (`ManychatAPI.py` / `actions.py` `ManychatAPI`)

`_request` issues one HTTP call and post-processes the response:

```python
try:
    response = await client.request(method, url, ...)
    if not response.is_success:          # non-2xx
        await log("error", ...); return None
    response_data = response.json()      # may raise -> outer except
    if method == "POST" and response_data.get("status") != "success":
        await log("error", ...); return None
    return response_data
except Exception:
    await log("error", ...); return None
```

The outcome of the HTTP call is the oracle `HttpResult`. A response's
parsed JSON body is modelled by `RespData`: the `status` field the code
inspects, plus an opaque remainder. `data = none` models a body on which
`response.json()` raises. The function is total: every error path returns
`none` — nothing propagates to the caller. -/

structure RespData where
  status : Option String
  rest : String
deriving DecidableEq, Repr

inductive HttpResult where
  /-- `client.request` itself raised (transport error). -/
  | transportError
  /-- A response: `is_success` (2xx), status code, parsed body
  (`none` when `.json()` raises). -/
  | response (isSuccess : Bool) (statusCode : Nat) (data : Option RespData)
deriving DecidableEq, Repr

/-- `ManychatAPI._request`, given the HTTP call's outcome. -/
def ManychatAPI_request (method : String) (r : HttpResult) : Option RespData :=
  match r with
  | .transportError => none
  | .response isSuccess _ data =>
    if !isSuccess then none
    else
      match data with
      | none => none
      | some d =>
        if method = "POST" ∧ d.status ≠ some "success" then none
        else some d

/-- `send_message`: POST `/fb/sending/sendContent` with a text message. -/
def mc_send_message (r : HttpResult) : Option RespData :=
  ManychatAPI_request "POST" r

/-- `send_audio`: POST `/fb/sending/sendContent` with an audio message. -/
def mc_send_audio (r : HttpResult) : Option RespData :=
  ManychatAPI_request "POST" r

/-- `add_tag`: POST `/fb/subscriber/addTagByName`. -/
def mc_add_tag (r : HttpResult) : Option RespData :=
  ManychatAPI_request "POST" r

/-- `remove_tag`: POST `/fb/subscriber/removeTagByName`. -/
def mc_remove_tag (r : HttpResult) : Option RespData :=
  ManychatAPI_request "POST" r

/-- `set_custom_field`: POST `/fb/subscriber/setCustomFieldByName`. -/
def mc_set_custom_field (r : HttpResult) : Option RespData :=
  ManychatAPI_request "POST" r

/-! ## Events

Observable external effects of one conversation turn. `advanceConvo`
records a re-entry into the orchestrator (`advance_convo(...)` called from
`change_assistant`) with the `convo_data` it is given; its first own effect
is starting a new run for that thread/assistant pair. -/

inductive Event where
  /-- `runs.create_and_poll(thread_id=t, assistant_id=a)` -/
  | createRun (threadId assistantId : String)
  /-- `runs.submit_tool_outputs(...)` with the fixed `"success"` output -/
  | submitToolOutputs (threadId runId toolCallId output : String)
  /-- `asyncio.sleep(n)` -/
  | sleepSec (n : Nat)
  /-- `runs.retrieve(...)` in the action-wait loop; records the observed status -/
  | checkStatus (threadId runId observed : String)
  /-- `messages.list(...)` for a completed run -/
  | listMessages (threadId runId : String)
  /-- `mc_api.send_message(subscriber, text)` -/
  | sendMessage (subscriber : String) (text : List Char)
  /-- `mc_api.add_tag(subscriber, tag)` -/
  | addTag (subscriber tag : String)
  /-- `mc_api.remove_tag(subscriber, tag)` -/
  | removeTag (subscriber tag : String)
  /-- `mc_api.set_custom_field(subscriber, field, value)` -/
  | setCustomField (subscriber field value : String)
  /-- recursive `advance_convo({...})` call with the new convo_data -/
  | advanceConvo (threadId assistantId botFilterTag manychatId : String)
  /-- `log("info", ...)` -/
  | logInfo (msg : String)
  /-- `log("error", ...)` -/
  | logError (msg : String)
deriving DecidableEq, Repr

/-- Number of status checks (`runs.retrieve`) in a trace. -/
def countChecks (t : List Event) : Nat :=
  (t.filter fun e => match e with | .checkStatus _ _ _ => true | _ => false).length

/-- Number of sleeps in a trace. -/
def countSleeps (t : List Event) : Nat :=
  (t.filter fun e => match e with | .sleepSec _ => true | _ => false).length

/-- Number of outbound subscriber messages (`send_message`) in a trace. -/
def countSends (t : List Event) : Nat :=
  (t.filter fun e => match e with | .sendMessage _ _ => true | _ => false).length

/-- Number of `set_custom_field` calls in a trace. -/
def countSetField (t : List Event) : Nat :=
  (t.filter fun e => match e with | .setCustomField _ _ _ => true | _ => false).length

/-- Number of orchestrator re-entries (`advance_convo` calls) in a trace. -/
def countAdvance (t : List Event) : Nat :=
  (t.filter fun e => match e with | .advanceConvo _ _ _ _ => true | _ => false).length

/-- Number of tag mutations (`add_tag` or `remove_tag`) in a trace. -/
def countTagCalls (t : List Event) : Nat :=
  (t.filter fun e =>
    match e with | .addTag _ _ => true | .removeTag _ _ => true | _ => false).length

/-! ## Oracles

Outcomes of external calls made during one turn. ManyChat call results are
reduced to their truthiness (`if response:` on the returned payload; a
successful POST payload has `status = "success"`, hence is truthy), per the
`ManychatAPI_request` model above. -/

structure Oracle where
  /-- `os.getenv` -/
  env : String → Option String
  /-- truthiness of the `set_custom_field` result in `change_assistant` -/
  scfOk : Bool
  /-- truthiness of the `remove_tag` result in `end_bot` -/
  removeOk : Bool
  /-- truthiness of the `add_tag` result in `end_bot` -/
  addOk : Bool
  /-- truthiness of the `send_message` result in `process_message_response` -/
  sendOk : Bool
  /-- status reported by `runs.retrieve` at the i-th action-wait check -/
  statusAt : Nat → String

/-! ## Action Executor (`actions.py` `change_assistant` / `end_bot`) -/

/-- The `assistant_map` dict literal of `change_assistant`: seven fixed
persona keys, each valued by an `os.getenv` lookup (possibly `None`). -/
def assistant_map (env : String → Option String) : List (String × Option String) :=
  [("Italian", env "Italian_ASST"),
   ("ecommerce", env "ecommerce_ASST"),
   ("GuidedWalkthrough", env "GuidedWalkthrough_ASST"),
   ("ManualWalkthrough", env "ManualWalkthrough_ASST"),
   ("HighTicket", env "HighTicket_ASST"),
   ("Enagic", env "Enagic_ASST"),
   ("mainMenu", env "mainMenu_ASST")]

/-- `assistant_map.get(pathway)`: `None` both when the key is absent and
when the configured value is `None`. -/
def assistant_map_get (env : String → Option String) (pathway : String) : Option String :=
  match (assistant_map env).lookup pathway with
  | some v => v
  | none => none

/-- `change_assistant(function_args, thread_id, manychat_id)`:

```python
pathway = function_args["scenario"]
assistant_id = assistant_map.get(pathway)
if assistant_id:
    response = await mc_api.set_custom_field(manychat_id, "assistant_id", assistant_id)
    if response:
        await log("info", f"Switch to {assistant_id} ...")
        await advance_convo({"thread_id": thread_id, "assistant_id": assistant_id,
                             "bot_filter_tag": "demo filter", "manychat_id": manychat_id})
```

A missing `"scenario"` key raises `KeyError`, caught by the function's own
handler and logged. A non-string `pathway` is never a key of
`assistant_map` (all its keys are strings), so `.get` yields `None`.
A falsy `assistant_id` (`None` or `""`) skips everything. A failed
`set_custom_field` call logs inside the client and the `if response:` body
is skipped — in particular no `advance_convo` re-entry. -/
def change_assistant (o : Oracle) (function_args : JObj)
    (threadId manychatId : String) : List Event :=
  match pyGet function_args "scenario" with
  | none => [Event.logError "Error changing asst"]
  | some pathway =>
    let assistant_id : Option String :=
      match pathway with
      | .jstr s => assistant_map_get o.env s
      | _ => none
    match assistant_id with
    | none => []
    | some aid =>
      if aid = "" then []
      else
        Event.setCustomField manychatId "assistant_id" aid ::
        (if o.scfOk then
          [Event.logInfo "Switch assistant",
           Event.advanceConvo threadId aid "demo filter" manychatId]
         else [Event.logError "Manychat API set_custom_field Failed"])

/-- `end_bot(function_args, thread_id, manychat_id)`: remove the
`"demo filter"` tag, then add the `"disable auto message"` tag. Neither
ManyChat call can raise (`_request` returns `None` on every error, logging
inside), so the second call is attempted regardless of the first's
outcome. -/
def end_bot (o : Oracle) (manychatId : String) : List Event :=
  (Event.removeTag manychatId "demo filter" ::
    (if o.removeOk then [] else [Event.logError "Manychat API remove_tag Failed"])) ++
  (Event.addTag manychatId "disable auto message" ::
    (if o.addOk then [] else [Event.logError "Manychat API add_tag Failed"]))

/-! ## Dispatch and the action-wait loop
(`actions.py` `process_function_response`; the `main.py` revision is
identical except that it has no wait loop between the tool-output
submission and the dispatch) -/

/-- The branch structure dispatching on the decoded tool-call arguments:
`"scenario" in function_args` selects the assistant switch,
`elif "endDemo" in function_args` selects the automation shutdown, any
other shape falls to the unknown-function error log. -/
inductive ActionKind where
  | switch_persona
  | end_automation
  | unknown
deriving DecidableEq, Repr

def decode_action (args : JObj) : ActionKind :=
  if hasKey args "scenario" then .switch_persona
  else if hasKey args "endDemo" then .end_automation
  else .unknown

/-- One tool call of `run.required_action.submit_tool_outputs.tool_calls`,
with `args` the dict `json.loads(tool_call.function.arguments)` yields. -/
structure ToolCall where
  id : String
  args : JObj

/-- The `for attempt in range(max_checks)` wait loop: each iteration sleeps
5 seconds, retrieves the run status, logs it, and breaks once the status is
`"completed"`. Returns the events and whether the loop broke (Python
`for`/`else`: the `else` timeout branch runs only when no break occurred).
`attempt` is the current index, `fuel` the remaining iterations. -/
def action_wait_loop (o : Oracle) (threadId runId : String) :
    Nat → Nat → List Event × Bool
  | _, 0 => ([], false)
  | attempt, fuel + 1 =>
    let st := o.statusAt attempt
    let evs := [Event.sleepSec 5, Event.checkStatus threadId runId st,
                Event.logInfo "Function status check"]
    if st = "completed" then (evs, true)
    else
      let r := action_wait_loop o threadId runId (attempt + 1) fuel
      (evs ++ r.1, r.2)

/-- `process_function_response(run_response, thread_id, manychat_id)`
(`actions.py`): take the first tool call, submit the fixed `"success"`
tool output, wait out the run with `max_checks = 6`, then dispatch on the
argument keys. An empty `tool_calls` list makes `tool_calls[0]` raise
`IndexError`, caught by the enclosing handler and logged.

In the `endDemo` branch the source calls `await end_demo(...)`, but no
`end_demo` is defined in either module (the defined function is
`end_bot`, which `main.py` imports and never calls): the call raises
`NameError`, caught by the enclosing handler and logged — `end_bot` is
never reached and no tag call is made. -/
def process_function_response (o : Oracle) (toolCalls : List ToolCall)
    (threadId runId manychatId : String) : List Event :=
  match toolCalls with
  | [] => [Event.logError "Error processing function response"]
  | tc :: _ =>
    let poll := action_wait_loop o threadId runId 0 6
    Event.submitToolOutputs threadId runId tc.id "success" ::
    poll.1 ++
    (if !poll.2 then
      [Event.logError "Function did not complete after 6 attempts"]
     else if hasKey tc.args "scenario" then
      change_assistant o tc.args threadId manychatId
     else if hasKey tc.args "endDemo" then
      [Event.logError "Error processing function response"]
     else
      [Event.logError "Unknown function response"])

/-! ## Message delivery and the run pipeline -/

/-- `process_message_response(run_response, thread_id, manychat_id)`: list
the run's messages, take the last one's text (a message is modelled by
`content[0].text.value`, the text of its first content block), strip the
citation span, and send it to the subscriber. An empty message list is
logged and nothing is sent. -/
def process_message_response (o : Oracle) (messages : List (List Char))
    (threadId runId manychatId : String) : List Event :=
  Event.listMessages threadId runId ::
  match messages.getLast? with
  | none => [Event.logError "No messages found in run response"]
  | some text =>
    Event.sendMessage manychatId (stripCitation text) ::
    (if o.sendOk then [] else [Event.logError "Manychat API send_message Failed"])

/-- The run object `create_and_poll` resolves to: its id, terminal-or-
actionable status, the tool calls of its `required_action` (when any), and
the texts `messages.list(thread_id, run_id=...)` returns for it. -/
structure RunResponse where
  id : String
  status : String
  toolCalls : List ToolCall
  messages : List (List Char)

/-- `process_run_response(run_response, thread_id, bot_filter_tag,
manychat_id)`: branch on the run status; `bot_filter_tag` is received and
never used. Any status other than `completed` / `requires_action` is
logged as a failure. -/
def process_run_response (o : Oracle) (run : RunResponse)
    (threadId _botFilterTag manychatId : String) : List Event :=
  if run.status = "completed" then
    process_message_response o run.messages threadId run.id manychatId
  else if run.status = "requires_action" then
    process_function_response o run.toolCalls threadId run.id manychatId
  else
    [Event.logError "Run thread failed"]

/-- The `convo_data` dict `advance_convo` consumes (string-valued, as the
endpoint's contract requires). -/
structure ConvoData where
  thread_id : String
  assistant_id : String
  bot_filter_tag : String
  manychat_id : String
deriving DecidableEq, Repr

/-- `advance_convo(convo_data)`: start a run via `create_and_poll` for the
turn's thread and assistant, then process the result. `runResult = none`
covers both a raising call and a falsy result (`raise Exception("Run
failed")`); either is caught by the function's own handler and logged, and
the turn ends. -/
def advance_convo (o : Oracle) (runResult : Option RunResponse)
    (c : ConvoData) : List Event :=
  Event.createRun c.thread_id c.assistant_id ::
  match runResult with
  | none => [Event.logError "advance_convo Unexpected error"]
  | some run =>
    process_run_response o run c.thread_id c.bot_filter_tag c.manychat_id

/-! ## Shared helper lemmas -/

theorem countChecks_append (a b : List Event) :
    countChecks (a ++ b) = countChecks a + countChecks b := by
  simp [countChecks, List.filter_append]

theorem countSleeps_append (a b : List Event) :
    countSleeps (a ++ b) = countSleeps a + countSleeps b := by
  simp [countSleeps, List.filter_append]

theorem countSends_append (a b : List Event) :
    countSends (a ++ b) = countSends a + countSends b := by
  simp [countSends, List.filter_append]

theorem countTagCalls_append (a b : List Event) :
    countTagCalls (a ++ b) = countTagCalls a + countTagCalls b := by
  simp [countTagCalls, List.filter_append]

theorem countSetField_append (a b : List Event) :
    countSetField (a ++ b) = countSetField a + countSetField b := by
  simp [countSetField, List.filter_append]

theorem countAdvance_append (a b : List Event) :
    countAdvance (a ++ b) = countAdvance a + countAdvance b := by
  simp [countAdvance, List.filter_append]

/-! ## Lemmas about the citation sanitizer -/

theorem pyFindIdx_append_not_mem {c : Char} {xs : List Char} (h : c ∉ xs)
    (ys : List Char) : pyFindIdx c (xs ++ c :: ys) = xs.length := by
  induction xs with
  | nil => simp [pyFindIdx]
  | cons x xs ih =>
    simp only [List.mem_cons, not_or] at h
    show (if x = c then 0 else pyFindIdx c (xs ++ c :: ys) + 1) = (x :: xs).length
    rw [if_neg (fun hx => h.1 hx.symm), ih h.2]
    rfl

theorem take_pyFindIdx (c : Char) (t : List Char) :
    t.take (pyFindIdx c t) = t.takeWhile (fun x => x ≠ c) := by
  induction t with
  | nil => simp [pyFindIdx]
  | cons x xs ih =>
    by_cases hx : x = c
    · simp [pyFindIdx, hx, List.takeWhile]
    · simp [pyFindIdx, hx, List.takeWhile, ih]

theorem drop_pyFindIdx_succ (c : Char) (t : List Char) :
    t.drop (pyFindIdx c t + 1) = (t.dropWhile (fun x => x ≠ c)).drop 1 := by
  induction t with
  | nil => simp [pyFindIdx]
  | cons x xs ih =>
    by_cases hx : x = c
    · simp [pyFindIdx, hx, List.dropWhile]
    · simp [pyFindIdx, hx, List.dropWhile, ih]

/-- On a text of the shape `p【c】s` where the two markers occur nowhere
else, the sanitizer deletes exactly the span from `【` through `】`. -/
theorem stripCitation_single_span (p c s : List Char)
    (hp1 : '【' ∉ p) (hp2 : '】' ∉ p) (hc2 : '】' ∉ c) :
    stripCitation (p ++ '【' :: (c ++ '】' :: s)) = p ++ s := by
  have hmem1 : '【' ∈ p ++ '【' :: (c ++ '】' :: s) := by simp
  have hmem2 : '】' ∈ p ++ '【' :: (c ++ '】' :: s) := by simp
  have hfind1 : pyFindIdx '【' (p ++ '【' :: (c ++ '】' :: s)) = p.length :=
    pyFindIdx_append_not_mem hp1 _
  have hshape : p ++ '【' :: (c ++ '】' :: s) = (p ++ '【' :: c) ++ '】' :: s := by
    simp
  have hfind2 : pyFindIdx '】' (p ++ '【' :: (c ++ '】' :: s))
      = (p ++ '【' :: c).length := by
    rw [hshape]
    exact pyFindIdx_append_not_mem (by simp [hp2, hc2]) _
  have htake : (p ++ '【' :: (c ++ '】' :: s)).take p.length = p :=
    List.take_left p ('【' :: (c ++ '】' :: s))
  have hdrop : (p ++ '【' :: (c ++ '】' :: s)).drop ((p ++ '【' :: c).length + 1)
      = s := by
    have hshape2 : p ++ '【' :: (c ++ '】' :: s)
        = ((p ++ '【' :: c) ++ ['】']) ++ s := by simp
    have hlen : (p ++ '【' :: c).length + 1 = ((p ++ '【' :: c) ++ ['】']).length := by
      simp
      omega
    rw [hshape2, hlen]
    exact List.drop_left _ _
  rw [stripCitation, if_pos ⟨hmem1, hmem2⟩, hfind1, hfind2, htake, hdrop]

/-- A text lacking either marker passes through the sanitizer unchanged. -/
theorem stripCitation_no_marker {t : List Char}
    (h : ¬('【' ∈ t ∧ '】' ∈ t)) : stripCitation t = t := by
  rw [stripCitation, if_neg h]

/-- **C9** — The citation sanitizer: when both markers occur, the result is
the segment strictly before the first `【` followed by the segment strictly
after the first `】`; when either marker is absent the text passes through
unchanged (single markers are retained); and on `"a】b【c"`, where the first
`】` precedes the first `【`, the result is `"a】bb【c"` — both markers
retained, the span between them duplicated. -/
theorem stripCitation_characterization :
    (∀ t : List Char, '【' ∈ t → '】' ∈ t →
      stripCitation t
        = t.takeWhile (fun x => x ≠ '【') ++ (t.dropWhile (fun x => x ≠ '】')).drop 1) ∧
    (∀ t : List Char, ¬('【' ∈ t ∧ '】' ∈ t) → stripCitation t = t) ∧
    stripCitation ('a' :: '】' :: 'b' :: '【' :: 'c' :: [])
      = ('a' :: '】' :: 'b' :: 'b' :: '【' :: 'c' :: []) := by
  refine ⟨fun t h1 h2 => ?_, fun t h => stripCitation_no_marker h, by decide⟩
  rw [stripCitation, if_pos ⟨h1, h2⟩, take_pyFindIdx, drop_pyFindIdx_succ]

/-- Witness for `stripCitation_characterization` at concrete inputs. -/
theorem stripCitation_characterization_witness :
    stripCitation ('x' :: '【' :: 'q' :: '】' :: 'y' :: [])
      = (('x' :: '【' :: 'q' :: '】' :: 'y' :: []).takeWhile (fun x => x ≠ '【')
          ++ (('x' :: '【' :: 'q' :: '】' :: 'y' :: []).dropWhile (fun x => x ≠ '】')).drop 1) ∧
    stripCitation ('x' :: '【' :: 'y' :: []) = ('x' :: '【' :: 'y' :: []) := by
  constructor
  · exact stripCitation_characterization.1 _ (by decide) (by decide)
  · exact stripCitation_characterization.2.1 _ (by decide)

/-- **C3** — For a completed run whose last message text is a single
bracketed citation span `prefix【cite】suffix` (the markers occur nowhere
else), the text delivered by `send_message` is `prefix ++ suffix`; and when
the last message text contains no citation marker at all, the delivered
text is identical to the extracted text. In both cases exactly one
outbound message is sent. -/
theorem delivered_text_citation_stripping (o : Oracle) (msgs : List (List Char))
    (p c s t : List Char) (threadId runId m : String) :
    (msgs.getLast? = some (p ++ '【' :: (c ++ '】' :: s)) →
      '【' ∉ p → '】' ∉ p → '【' ∉ c → '】' ∉ c → '【' ∉ s → '】' ∉ s →
      Event.sendMessage m (p ++ s) ∈ process_message_response o msgs threadId runId m ∧
      countSends (process_message_response o msgs threadId runId m) = 1) ∧
    (msgs.getLast? = some t → '【' ∉ t → '】' ∉ t →
      Event.sendMessage m t ∈ process_message_response o msgs threadId runId m ∧
      countSends (process_message_response o msgs threadId runId m) = 1) := by
  constructor
  · intro hlast hp1 hp2 _hc1 hc2 _hs1 _hs2
    have hstrip := stripCitation_single_span p c s hp1 hp2 hc2
    refine ⟨?_, ?_⟩
    · simp [process_message_response, hlast, hstrip]
    · simp only [process_message_response, hlast]
      cases o.sendOk <;> simp [countSends]
  · intro hlast h1 h2
    have hstrip : stripCitation t = t := stripCitation_no_marker (fun hb => h1 hb.1)
    refine ⟨?_, ?_⟩
    · simp [process_message_response, hlast, hstrip]
    · simp only [process_message_response, hlast]
      cases o.sendOk <;> simp [countSends]

/-- Witness for `delivered_text_citation_stripping` at a concrete message. -/
theorem delivered_text_citation_stripping_witness :
    Event.sendMessage "sub1" (['H', 'i'] ++ ['!']) ∈
      process_message_response ⟨fun _ => none, true, true, true, true, fun _ => "queued"⟩
        [['H', 'i'] ++ '【' :: (['c'] ++ '】' :: ['!'])] "t1" "r1" "sub1" :=
  ((delivered_text_citation_stripping
      ⟨fun _ => none, true, true, true, true, fun _ => "queued"⟩
      [['H', 'i'] ++ '【' :: (['c'] ++ '】' :: ['!'])]
      ['H', 'i'] ['c'] ['!'] [] "t1" "r1" "sub1").1
    (by decide) (by decide) (by decide) (by decide) (by decide) (by decide)
    (by decide)).1

/-! ## Lemmas about request validation -/

theorem fieldGet_ext {d1 d2 : JObj} (h : ∀ k, pyGet d1 k = pyGet d2 k) (f : String) :
    fieldGet d1 f = fieldGet d2 f := by
  simp [fieldGet, h f]

theorem validate_ext {d1 d2 : JObj} (h : ∀ k, pyGet d1 k = pyGet d2 k) :
    validate_request_data d1 = validate_request_data d2 := by
  have hf : ∀ f, fieldGet d1 f = fieldGet d2 f := fieldGet_ext h
  simp only [validate_request_data, missing_fields, hf]

theorem reject_of_field_missing {d : JObj} {f : String}
    (hf : f ∈ required_fields) (hmiss : fieldMissing (fieldGet d f) = true) :
    validate_request_data d = none ∧ (generate_response d).ok = false ∧
    (generate_response d).scheduled = none := by
  have hne : missing_fields d ≠ [] := by
    intro h0
    have hmem : f ∈ missing_fields d := List.mem_filter.mpr ⟨hf, hmiss⟩
    rw [h0] at hmem
    exact absurd hmem (List.not_mem_nil f)
  have hval : validate_request_data d = none := by
    rw [validate_request_data, if_neg hne]
  exact ⟨hval, by simp [generate_response, hval], by simp [generate_response, hval]⟩

theorem accept_of_no_field_missing {d : JObj}
    (h : ∀ f ∈ required_fields, fieldMissing (fieldGet d f) = false) :
    (generate_response d).ok = true ∧ (generate_response d).scheduled ≠ none := by
  have hnil : missing_fields d = [] := by
    refine List.filter_eq_nil_iff.mpr ?_
    intro f hf
    simp [h f hf]
  have hval : validate_request_data d
      = some ⟨fieldGet d "thread_id", fieldGet d "assistant_id",
              fieldGet d "bot_filter_tag", fieldGet d "manychat_id"⟩ := by
    rw [validate_request_data, if_pos hnil]
  refine ⟨by simp [generate_response, hval], by simp [generate_response, hval]⟩

/-- **C10** — Request validation treats the literal string `"null"` and
every falsy value (empty string, `0`, `false`, empty object/array, JSON
`null`, absent key — all the values with `truthy = false`) in a required
field as missing: validation fails and the endpoint schedules no
background turn. -/
theorem validation_treats_null_and_falsy_as_missing (d : JObj) (f : String)
    (hf : f ∈ required_fields)
    (hv : fieldGet d f = .jstr "null" ∨ (fieldGet d f).truthy = false) :
    validate_request_data d = none ∧ (generate_response d).ok = false ∧
    (generate_response d).scheduled = none := by
  have hmiss : fieldMissing (fieldGet d f) = true := by
    rcases hv with h | h
    · simp [fieldMissing, h, JVal.truthy]
    · simp [fieldMissing, h]
  exact reject_of_field_missing hf hmiss

/-- Witness for `validation_treats_null_and_falsy_as_missing`: the payload
supplies all four fields, but `bot_filter_tag` is the literal string
`"null"`; the request is rejected and nothing is scheduled. -/
theorem validation_treats_null_and_falsy_as_missing_witness :
    validate_request_data
        [("thread_id", JVal.jstr "t"), ("assistant_id", JVal.jstr "a"),
         ("bot_filter_tag", JVal.jstr "null"), ("manychat_id", JVal.jstr "m")] = none ∧
    (generate_response
        [("thread_id", JVal.jstr "t"), ("assistant_id", JVal.jstr "a"),
         ("bot_filter_tag", JVal.jstr "null"), ("manychat_id", JVal.jstr "m")]).ok = false ∧
    (generate_response
        [("thread_id", JVal.jstr "t"), ("assistant_id", JVal.jstr "a"),
         ("bot_filter_tag", JVal.jstr "null"), ("manychat_id", JVal.jstr "m")]).scheduled = none :=
  validation_treats_null_and_falsy_as_missing _ "bot_filter_tag" (by decide)
    (Or.inl (by decide))

/-- **C7 (amended)** — A payload in which a required field is absent,
JSON `null`, or the empty string is rejected with an error response and
no background work is scheduled; the endpoint's outcome depends on the
payload only through key lookup, hence not on field order; and a payload
whose four required fields are non-empty strings other than the literal
`"null"` passes validation and schedules the background turn. (As frozen,
the claim said every payload with all four fields present and non-empty
passes; the literal string `"null"` refutes that — see
`nonempty_null_string_rejected`.) -/
theorem endpoint_validation_policy (d : JObj) :
    (∀ f ∈ required_fields,
      pyGet d f = none ∨ pyGet d f = some .jnull ∨ pyGet d f = some (.jstr "") →
      validate_request_data d = none ∧ (generate_response d).ok = false ∧
        (generate_response d).scheduled = none) ∧
    (∀ d2 : JObj, (∀ k, pyGet d k = pyGet d2 k) →
      generate_response d = generate_response d2) ∧
    ((∀ f ∈ required_fields, ∃ s, pyGet d f = some (.jstr s) ∧ s ≠ "" ∧ s ≠ "null") →
      (generate_response d).ok = true ∧ (generate_response d).scheduled ≠ none) := by
  refine ⟨?_, ?_, ?_⟩
  · intro f hf hcase
    have hmiss : fieldMissing (fieldGet d f) = true := by
      rcases hcase with h | h | h <;> simp [fieldMissing, fieldGet, h, JVal.truthy]
    exact reject_of_field_missing hf hmiss
  · intro d2 h
    simp [generate_response, validate_ext h]
  · intro h
    refine accept_of_no_field_missing ?_
    intro f hf
    obtain ⟨s, hget, hs1, hs2⟩ := h f hf
    simp [fieldMissing, fieldGet, hget, JVal.truthy, hs1, hs2]

/-- Counterexample to C7 as frozen: every required field of this payload is
present and a non-empty string, yet (because `thread_id` is the literal
string `"null"`) the endpoint rejects it and schedules nothing. -/
theorem nonempty_null_string_rejected :
    (∀ f ∈ required_fields,
      (pyGet [("thread_id", JVal.jstr "null"), ("assistant_id", JVal.jstr "a"),
              ("bot_filter_tag", JVal.jstr "b"), ("manychat_id", JVal.jstr "m")] f).isSome = true ∧
      fieldGet [("thread_id", JVal.jstr "null"), ("assistant_id", JVal.jstr "a"),
                ("bot_filter_tag", JVal.jstr "b"), ("manychat_id", JVal.jstr "m")] f ≠ JVal.jstr "") ∧
    (generate_response [("thread_id", JVal.jstr "null"), ("assistant_id", JVal.jstr "a"),
        ("bot_filter_tag", JVal.jstr "b"), ("manychat_id", JVal.jstr "m")]).ok = false ∧
    (generate_response [("thread_id", JVal.jstr "null"), ("assistant_id", JVal.jstr "a"),
        ("bot_filter_tag", JVal.jstr "b"), ("manychat_id", JVal.jstr "m")]).scheduled = none := by
  decide

/-- Witness for `endpoint_validation_policy`: a fully-populated payload is
accepted and scheduled; one lacking `manychat_id` is rejected. -/
theorem endpoint_validation_policy_witness :
    ((generate_response [("thread_id", JVal.jstr "t"), ("assistant_id", JVal.jstr "a"),
        ("bot_filter_tag", JVal.jstr "b"), ("manychat_id", JVal.jstr "m")]).ok = true ∧
     (generate_response [("thread_id", JVal.jstr "t"), ("assistant_id", JVal.jstr "a"),
        ("bot_filter_tag", JVal.jstr "b"), ("manychat_id", JVal.jstr "m")]).scheduled ≠ none) ∧
    (generate_response [("thread_id", JVal.jstr "t")]).scheduled = none := by
  constructor
  · refine (endpoint_validation_policy _).2.2 ?_
    intro f hf
    simp only [required_fields, List.mem_cons, List.not_mem_nil, or_false] at hf
    rcases hf with rfl | rfl | rfl | rfl
    · exact ⟨"t", by decide, by decide, by decide⟩
    · exact ⟨"a", by decide, by decide, by decide⟩
    · exact ⟨"b", by decide, by decide, by decide⟩
    · exact ⟨"m", by decide, by decide, by decide⟩
  · exact ((endpoint_validation_policy _).1 "manychat_id" (by decide)
      (Or.inl (by decide))).2.2

/-! ## Lemmas about the action-wait loop and the dispatcher traces -/

theorem change_assistant_counts (o : Oracle) (args : JObj) (t m : String) :
    countChecks (change_assistant o args t m) = 0 ∧
    countSleeps (change_assistant o args t m) = 0 ∧
    countSends (change_assistant o args t m) = 0 ∧
    countTagCalls (change_assistant o args t m) = 0 ∧
    (∀ n, Event.sleepSec n ∉ change_assistant o args t m) := by
  unfold change_assistant
  split
  · simp [countChecks, countSleeps, countSends, countTagCalls]
  · dsimp only
    split
    · simp [countChecks, countSleeps, countSends, countTagCalls]
    · split
      · simp [countChecks, countSleeps, countSends, countTagCalls]
      · cases o.scfOk <;>
          simp [countChecks, countSleeps, countSends, countTagCalls]

/-- One wait-loop iteration that observes `completed`. -/
theorem wait_loop_step_completed (o : Oracle) (t r : String) (a fuel : Nat)
    (h : o.statusAt a = "completed") :
    action_wait_loop o t r a (fuel + 1)
      = ([Event.sleepSec 5, Event.checkStatus t r "completed",
          Event.logInfo "Function status check"], true) := by
  simp [action_wait_loop, h]

/-- One wait-loop iteration that observes some other status. -/
theorem wait_loop_step_pending (o : Oracle) (t r : String) (a fuel : Nat)
    (h : o.statusAt a ≠ "completed") :
    action_wait_loop o t r a (fuel + 1)
      = ([Event.sleepSec 5, Event.checkStatus t r (o.statusAt a),
          Event.logInfo "Function status check"]
            ++ (action_wait_loop o t r (a + 1) fuel).1,
         (action_wait_loop o t r (a + 1) fuel).2) := by
  simp [action_wait_loop, h]

theorem wait_loop_counts (o : Oracle) (t r : String) :
    ∀ fuel a, countSends (action_wait_loop o t r a fuel).1 = 0 ∧
      countTagCalls (action_wait_loop o t r a fuel).1 = 0 ∧
      countSetField (action_wait_loop o t r a fuel).1 = 0 ∧
      countAdvance (action_wait_loop o t r a fuel).1 = 0 := by
  intro fuel
  induction fuel with
  | zero =>
    intro a
    simp [action_wait_loop, countSends, countTagCalls, countSetField, countAdvance]
  | succ n ih =>
    intro a
    obtain ⟨ih1, ih2, ih3, ih4⟩ := ih (a + 1)
    by_cases h : o.statusAt a = "completed"
    · rw [wait_loop_step_completed o t r a n h]
      simp [countSends, countTagCalls, countSetField, countAdvance]
    · rw [wait_loop_step_pending o t r a n h]
      simp only [countSends_append, countTagCalls_append, countSetField_append,
        countAdvance_append, ih1, ih2, ih3, ih4]
      simp [countSends, countTagCalls, countSetField, countAdvance]

theorem wait_loop_sleeps (o : Oracle) (t r : String) :
    ∀ fuel a, countSleeps (action_wait_loop o t r a fuel).1
        = countChecks (action_wait_loop o t r a fuel).1 ∧
      (∀ n, Event.sleepSec n ∈ (action_wait_loop o t r a fuel).1 → n = 5) := by
  intro fuel
  induction fuel with
  | zero =>
    intro a
    simp [action_wait_loop, countSleeps, countChecks]
  | succ n ih =>
    intro a
    obtain ⟨ih1, ih2⟩ := ih (a + 1)
    by_cases h : o.statusAt a = "completed"
    · rw [wait_loop_step_completed o t r a n h]
      constructor
      · simp [countSleeps, countChecks]
      · intro k hk
        simp only [List.mem_cons, List.not_mem_nil, or_false] at hk
        rcases hk with hk | hk | hk <;> first | (cases hk; rfl) | cases hk
    · rw [wait_loop_step_pending o t r a n h]
      constructor
      · have hpre : countSleeps
            ([Event.sleepSec 5, Event.checkStatus t r (o.statusAt a),
              Event.logInfo "Function status check"] : List Event) = 1 := by
          simp [countSleeps]
        have hpre2 : countChecks
            ([Event.sleepSec 5, Event.checkStatus t r (o.statusAt a),
              Event.logInfo "Function status check"] : List Event) = 1 := by
          simp [countChecks]
        simp only [countSleeps_append, countChecks_append, hpre, hpre2, ih1]
      · intro k hk
        simp only [List.mem_append, List.mem_cons, List.not_mem_nil, or_false] at hk
        rcases hk with (hk | hk | hk) | hk
        · cases hk; rfl
        · cases hk
        · cases hk
        · exact ih2 k hk

theorem wait_loop_checks_le (o : Oracle) (t r : String) :
    ∀ fuel a, countChecks (action_wait_loop o t r a fuel).1 ≤ fuel := by
  intro fuel
  induction fuel with
  | zero => intro a; simp [action_wait_loop, countChecks]
  | succ n ih =>
    intro a
    by_cases h : o.statusAt a = "completed"
    · rw [wait_loop_step_completed o t r a n h]
      simp [countChecks]
    · rw [wait_loop_step_pending o t r a n h]
      have hpre : countChecks
          ([Event.sleepSec 5, Event.checkStatus t r (o.statusAt a),
            Event.logInfo "Function status check"] : List Event) = 1 := by
        simp [countChecks]
      have := ih (a + 1)
      simp only [countChecks_append, hpre]
      omega

theorem wait_loop_early (o : Oracle) (t r : String) :
    ∀ fuel a i, i < fuel →
      (∀ j, j < i → o.statusAt (a + j) ≠ "completed") →
      o.statusAt (a + i) = "completed" →
      countChecks (action_wait_loop o t r a fuel).1 = i + 1 ∧
        (action_wait_loop o t r a fuel).2 = true := by
  intro fuel
  induction fuel with
  | zero => intro a i hi; omega
  | succ n ih =>
    intro a i hi hbefore hat
    cases i with
    | zero =>
      have h : o.statusAt a = "completed" := by simpa using hat
      rw [wait_loop_step_completed o t r a n h]
      simp [countChecks]
    | succ i' =>
      have h : o.statusAt a ≠ "completed" := by
        have := hbefore 0 (Nat.succ_pos i')
        simpa using this
      have hrec := ih (a + 1) i' (by omega)
        (fun j hj => by
          have := hbefore (j + 1) (by omega)
          have heq : a + (j + 1) = a + 1 + j := by omega
          rwa [heq] at this)
        (by
          have heq : a + (i' + 1) = a + 1 + i' := by omega
          rwa [heq] at hat)
      rw [wait_loop_step_pending o t r a n h]
      have hpre : countChecks
          ([Event.sleepSec 5, Event.checkStatus t r (o.statusAt a),
            Event.logInfo "Function status check"] : List Event) = 1 := by
        simp [countChecks]
      constructor
      · simp only [countChecks_append, hpre, hrec.1]
        omega
      · exact hrec.2

theorem wait_loop_timeout (o : Oracle) (t r : String) :
    ∀ fuel a, (∀ j, j < fuel → o.statusAt (a + j) ≠ "completed") →
      countChecks (action_wait_loop o t r a fuel).1 = fuel ∧
        (action_wait_loop o t r a fuel).2 = false := by
  intro fuel
  induction fuel with
  | zero => intro a _; simp [action_wait_loop, countChecks]
  | succ n ih =>
    intro a hnone
    have h : o.statusAt a ≠ "completed" := by
      have := hnone 0 (Nat.succ_pos n)
      simpa using this
    have hrec := ih (a + 1) (fun j hj => by
      have := hnone (j + 1) (by omega)
      have heq : a + (j + 1) = a + 1 + j := by omega
      rwa [heq] at this)
    rw [wait_loop_step_pending o t r a n h]
    have hpre : countChecks
        ([Event.sleepSec 5, Event.checkStatus t r (o.statusAt a),
          Event.logInfo "Function status check"] : List Event) = 1 := by
      simp [countChecks]
    constructor
    · simp only [countChecks_append, hpre, hrec.1]
      omega
    · exact hrec.2

/-- Unfolding of `process_function_response` on a non-empty tool-call list. -/
theorem pfr_cons (o : Oracle) (tc : ToolCall) (rest : List ToolCall)
    (t r m : String) :
    process_function_response o (tc :: rest) t r m
      = Event.submitToolOutputs t r tc.id "success" ::
        ((action_wait_loop o t r 0 6).1 ++
         (if !(action_wait_loop o t r 0 6).2 then
            [Event.logError "Function did not complete after 6 attempts"]
          else if hasKey tc.args "scenario" then change_assistant o tc.args t m
          else if hasKey tc.args "endDemo" then
            [Event.logError "Error processing function response"]
          else [Event.logError "Unknown function response"])) := rfl

theorem counts_cons_submit (a b c d : String) (l : List Event) :
    countChecks (Event.submitToolOutputs a b c d :: l) = countChecks l ∧
    countSleeps (Event.submitToolOutputs a b c d :: l) = countSleeps l ∧
    countSends (Event.submitToolOutputs a b c d :: l) = countSends l ∧
    countTagCalls (Event.submitToolOutputs a b c d :: l) = countTagCalls l := by
  simp [countChecks, countSleeps, countSends, countTagCalls, List.filter_cons]

/-- Whatever branch the dispatcher takes after the wait loop, that branch
performs no further status checks, sleeps, or outbound messages. -/
theorem dispatch_branch_counts (o : Oracle) (args : JObj) (ok : Bool)
    (t m : String) :
    countChecks (if !ok then
        [Event.logError "Function did not complete after 6 attempts"]
      else if hasKey args "scenario" then change_assistant o args t m
      else if hasKey args "endDemo" then
        [Event.logError "Error processing function response"]
      else [Event.logError "Unknown function response"]) = 0 ∧
    countSleeps (if !ok then
        [Event.logError "Function did not complete after 6 attempts"]
      else if hasKey args "scenario" then change_assistant o args t m
      else if hasKey args "endDemo" then
        [Event.logError "Error processing function response"]
      else [Event.logError "Unknown function response"]) = 0 ∧
    countSends (if !ok then
        [Event.logError "Function did not complete after 6 attempts"]
      else if hasKey args "scenario" then change_assistant o args t m
      else if hasKey args "endDemo" then
        [Event.logError "Error processing function response"]
      else [Event.logError "Unknown function response"]) = 0 ∧
    (∀ n, Event.sleepSec n ∉ (if !ok then
        [Event.logError "Function did not complete after 6 attempts"]
      else if hasKey args "scenario" then change_assistant o args t m
      else if hasKey args "endDemo" then
        [Event.logError "Error processing function response"]
      else [Event.logError "Unknown function response"])) := by
  have hca := change_assistant_counts o args t m
  cases ok with
  | false => simp [countChecks, countSleeps, countSends]
  | true =>
    by_cases h1 : hasKey args "scenario"
    · simpa [h1] using ⟨hca.1, hca.2.1, hca.2.2.1, hca.2.2.2.2⟩
    · by_cases h2 : hasKey args "endDemo" <;>
        simp [h1, h2, countChecks, countSleeps, countSends]

/-- **C2** — After the tool output is submitted for a `requires_action`
run, the wait loop performs at most 6 status checks, each preceded by a
5-second sleep (sleeps and checks are in bijection and every sleep lasts
5 time units); if `completed` is first observed at the (i+1)-th check,
exactly i+1 checks happen (in particular 3 checks when the 3rd observes
`completed`); and if none of the 6 checks observes `completed`, exactly 6
checks happen, the timeout is logged, and the turn delivers zero outbound
messages. -/
theorem action_wait_loop_policy (o : Oracle) (tc : ToolCall)
    (rest : List ToolCall) (t r m : String) :
    (countChecks (process_function_response o (tc :: rest) t r m) ≤ 6 ∧
     countSleeps (process_function_response o (tc :: rest) t r m)
       = countChecks (process_function_response o (tc :: rest) t r m) ∧
     (∀ n, Event.sleepSec n ∈ process_function_response o (tc :: rest) t r m →
        n = 5)) ∧
    (∀ i, i < 6 → (∀ j, j < i → o.statusAt j ≠ "completed") →
      o.statusAt i = "completed" →
      countChecks (process_function_response o (tc :: rest) t r m) = i + 1) ∧
    ((∀ i, i < 6 → o.statusAt i ≠ "completed") →
      countChecks (process_function_response o (tc :: rest) t r m) = 6 ∧
      Event.logError "Function did not complete after 6 attempts"
        ∈ process_function_response o (tc :: rest) t r m ∧
      countSends (process_function_response o (tc :: rest) t r m) = 0) := by
  have hB := dispatch_branch_counts o tc.args (action_wait_loop o t r 0 6).2 t m
  have hsub := counts_cons_submit t r tc.id "success"
    ((action_wait_loop o t r 0 6).1 ++
      (if !(action_wait_loop o t r 0 6).2 then
        [Event.logError "Function did not complete after 6 attempts"]
      else if hasKey tc.args "scenario" then change_assistant o tc.args t m
      else if hasKey tc.args "endDemo" then
        [Event.logError "Error processing function response"]
      else [Event.logError "Unknown function response"]))
  refine ⟨⟨?_, ?_, ?_⟩, ?_, ?_⟩
  · rw [pfr_cons, hsub.1, countChecks_append, hB.1]
    have := wait_loop_checks_le o t r 6 0
    omega
  · rw [pfr_cons, hsub.1, hsub.2.1, countChecks_append, countSleeps_append,
      hB.1, hB.2.1, (wait_loop_sleeps o t r 6 0).1]
  · intro n hn
    rw [pfr_cons] at hn
    simp only [List.mem_cons, List.mem_append] at hn
    rcases hn with hn | hn | hn
    · cases hn
    · exact (wait_loop_sleeps o t r 6 0).2 n hn
    · exact absurd hn (hB.2.2.2 n)
  · intro i hi hbefore hat
    have hearly := wait_loop_early o t r 6 0 i hi
      (fun j hj => by simpa using hbefore j hj) (by simpa using hat)
    rw [pfr_cons, hsub.1, countChecks_append, hB.1, hearly.1]
  · intro hnone
    have htimeout := wait_loop_timeout o t r 6 0
      (fun j hj => by simpa using hnone j hj)
    refine ⟨?_, ?_, ?_⟩
    · rw [pfr_cons, hsub.1, countChecks_append, hB.1, htimeout.1]
    · rw [pfr_cons]
      have : (!(action_wait_loop o t r 0 6).2) = true := by
        rw [htimeout.2]; rfl
      simp [this]
    · rw [pfr_cons, hsub.2.2.1, countSends_append, hB.2.2.1,
        (wait_loop_counts o t r 6 0).1]

/-- Witness for `action_wait_loop_policy`: with a run whose status is
`completed` from the 3rd check on, exactly 3 checks happen; with a run
that never completes, 6 checks happen, the timeout is logged, and no
message is sent. -/
theorem action_wait_loop_policy_witness :
    countChecks (process_function_response
      ⟨fun _ => none, true, true, true, true,
       fun i => if i = 2 then "completed" else "in_progress"⟩
      [⟨"call_1", []⟩] "t1" "r1" "m1") = 3 ∧
    (countChecks (process_function_response
      ⟨fun _ => none, true, true, true, true, fun _ => "in_progress"⟩
      [⟨"call_1", []⟩] "t1" "r1" "m1") = 6 ∧
     Event.logError "Function did not complete after 6 attempts"
       ∈ process_function_response
         ⟨fun _ => none, true, true, true, true, fun _ => "in_progress"⟩
         [⟨"call_1", []⟩] "t1" "r1" "m1" ∧
     countSends (process_function_response
       ⟨fun _ => none, true, true, true, true, fun _ => "in_progress"⟩
       [⟨"call_1", []⟩] "t1" "r1" "m1") = 0) := by
  constructor
  · exact (action_wait_loop_policy
      ⟨fun _ => none, true, true, true, true,
       fun i => if i = 2 then "completed" else "in_progress"⟩
      ⟨"call_1", []⟩ [] "t1" "r1" "m1").2.1 2 (by omega)
      (fun j hj => by
        have hne : j ≠ 2 := by omega
        simp [hne])
      (by simp)
  · exact (action_wait_loop_policy
      ⟨fun _ => none, true, true, true, true, fun _ => "in_progress"⟩
      ⟨"call_1", []⟩ [] "t1" "r1" "m1").2.2
      (fun i _ => by simp)

/-! ## Traces of `change_assistant` -/

theorem change_assistant_success_trace (o : Oracle) (args : JObj)
    (X aid t m : String) (hX : pyGet args "scenario" = some (.jstr X))
    (haid : assistant_map_get o.env X = some aid) (hne : aid ≠ "")
    (hok : o.scfOk = true) :
    change_assistant o args t m
      = [Event.setCustomField m "assistant_id" aid,
         Event.logInfo "Switch assistant",
         Event.advanceConvo t aid "demo filter" m] := by
  simp [change_assistant, hX, haid, hne, hok]

theorem change_assistant_failure_trace (o : Oracle) (args : JObj)
    (X aid t m : String) (hX : pyGet args "scenario" = some (.jstr X))
    (haid : assistant_map_get o.env X = some aid) (hne : aid ≠ "")
    (hok : o.scfOk = false) :
    change_assistant o args t m
      = [Event.setCustomField m "assistant_id" aid,
         Event.logError "Manychat API set_custom_field Failed"] := by
  simp [change_assistant, hX, haid, hne, hok]

theorem change_assistant_miss_trace (o : Oracle) (args : JObj)
    (X t m : String) (hX : pyGet args "scenario" = some (.jstr X))
    (haid : assistant_map_get o.env X = none) :
    change_assistant o args t m = [] := by
  simp [change_assistant, hX, haid]

theorem change_assistant_empty_trace (o : Oracle) (args : JObj)
    (X t m : String) (hX : pyGet args "scenario" = some (.jstr X))
    (haid : assistant_map_get o.env X = some "") :
    change_assistant o args t m = [] := by
  simp [change_assistant, hX, haid]

/-- **C1 (amended)** — For a handled tool call whose arguments carry
`scenario = X`: if the registry maps `X` to a configured, non-empty
assistant id, exactly one `set_custom_field` call sets the subscriber's
`assistant_id` field to that id, and — when that call succeeds — exactly
one new run is started under that assistant for the same thread; when the
`set_custom_field` call fails, no new run starts. If `X` is not mapped (or
its configured id is empty), no `set_custom_field` call is made and no new
run starts, without an error. (As frozen, the claim promised the restart
unconditionally after the `set_custom_field` call; a failed call refutes
that — see `failed_setfield_means_no_restart`.) -/
theorem change_assistant_switch_policy (o : Oracle) (args : JObj)
    (X aid t m : String) (hX : pyGet args "scenario" = some (.jstr X)) :
    (assistant_map_get o.env X = some aid → aid ≠ "" →
      (o.scfOk = true →
        countSetField (change_assistant o args t m) = 1 ∧
        Event.setCustomField m "assistant_id" aid ∈ change_assistant o args t m ∧
        countAdvance (change_assistant o args t m) = 1 ∧
        Event.advanceConvo t aid "demo filter" m ∈ change_assistant o args t m) ∧
      (o.scfOk = false →
        countSetField (change_assistant o args t m) = 1 ∧
        countAdvance (change_assistant o args t m) = 0)) ∧
    (assistant_map_get o.env X = none → change_assistant o args t m = []) ∧
    (assistant_map_get o.env X = some "" → change_assistant o args t m = []) := by
  refine ⟨fun haid hne => ⟨fun hok => ?_, fun hok => ?_⟩,
    fun hmiss => change_assistant_miss_trace o args X t m hX hmiss,
    fun hempty => change_assistant_empty_trace o args X t m hX hempty⟩
  · rw [change_assistant_success_trace o args X aid t m hX haid hne hok]
    refine ⟨by simp [countSetField], by simp, by simp [countAdvance], by simp⟩
  · rw [change_assistant_failure_trace o args X aid t m hX haid hne hok]
    exact ⟨by simp [countSetField], by simp [countAdvance]⟩

/-- Counterexample to C1 as frozen: `"Italian"` is mapped by the registry,
the single `set_custom_field` call is issued but fails, and no new run is
started — the claim's unconditional "then starts exactly one new run" is
false here. -/
theorem failed_setfield_means_no_restart :
    assistant_map_get
        (fun k => if k = "Italian_ASST" then some "asst_italian" else none)
        "Italian" = some "asst_italian" ∧
    countSetField (change_assistant
        ⟨fun k => if k = "Italian_ASST" then some "asst_italian" else none,
         false, true, true, true, fun _ => "completed"⟩
        [("scenario", JVal.jstr "Italian")] "t1" "m1") = 1 ∧
    ¬ (countSetField (change_assistant
          ⟨fun k => if k = "Italian_ASST" then some "asst_italian" else none,
           false, true, true, true, fun _ => "completed"⟩
          [("scenario", JVal.jstr "Italian")] "t1" "m1") = 1 ∧
       countAdvance (change_assistant
          ⟨fun k => if k = "Italian_ASST" then some "asst_italian" else none,
           false, true, true, true, fun _ => "completed"⟩
          [("scenario", JVal.jstr "Italian")] "t1" "m1") = 1) := by
  decide

/-- Witness for `change_assistant_switch_policy`: a mapped scenario with a
successful field update restarts under the new assistant; an unmapped
scenario is a silent no-op. -/
theorem change_assistant_switch_policy_witness :
    Event.advanceConvo "t1" "asst_it" "demo filter" "m1"
      ∈ change_assistant
        ⟨fun k => if k = "Italian_ASST" then some "asst_it" else none,
         true, true, true, true, fun _ => "completed"⟩
        [("scenario", JVal.jstr "Italian")] "t1" "m1" ∧
    change_assistant
        ⟨fun k => if k = "Italian_ASST" then some "asst_it" else none,
         true, true, true, true, fun _ => "completed"⟩
        [("scenario", JVal.jstr "unknown-key")] "t1" "m1" = [] := by
  constructor
  · exact ((change_assistant_switch_policy
      ⟨fun k => if k = "Italian_ASST" then some "asst_it" else none,
       true, true, true, true, fun _ => "completed"⟩
      [("scenario", JVal.jstr "Italian")] "Italian" "asst_it" "t1" "m1"
      (by decide)).1 (by decide) (by decide)).1 rfl |>.2.2.2
  · exact (change_assistant_switch_policy
      ⟨fun k => if k = "Italian_ASST" then some "asst_it" else none,
       true, true, true, true, fun _ => "completed"⟩
      [("scenario", JVal.jstr "unknown-key")] "unknown-key" "x" "t1" "m1"
      (by decide)).2.1 (by decide)

/-- **C8 (amended)** — When the Action Executor signals a persona switch
(registry hit and successful `set_custom_field`), exactly one orchestrator
re-entry happens, and it carries the same `thread_id`, the same
`manychat_id`, and the new assistant id — but the filter tag is the
constant `"demo filter"`, not the original turn's tag (which
`change_assistant` never receives). (As frozen, the claim said the
restart keeps the original turn's filter tag; a turn whose tag is not
`"demo filter"` refutes that — see `restart_filter_tag_hardcoded`.) -/
theorem persona_switch_restart_params (o : Oracle) (args : JObj)
    (X aid t m : String) (hX : pyGet args "scenario" = some (.jstr X))
    (haid : assistant_map_get o.env X = some aid) (hne : aid ≠ "")
    (hok : o.scfOk = true) :
    Event.advanceConvo t aid "demo filter" m ∈ change_assistant o args t m ∧
    (∀ t2 a2 tag2 m2,
      Event.advanceConvo t2 a2 tag2 m2 ∈ change_assistant o args t m →
      t2 = t ∧ a2 = aid ∧ tag2 = "demo filter" ∧ m2 = m) := by
  rw [change_assistant_success_trace o args X aid t m hX haid hne hok]
  refine ⟨by simp, ?_⟩
  intro t2 a2 tag2 m2 hmem
  simp only [List.mem_cons, List.not_mem_nil, or_false] at hmem
  rcases hmem with h | h | h
  · cases h
  · cases h
  · injection h with h1 h2 h3 h4
    exact ⟨h1, h2, h3, h4⟩

/-- Counterexample to C8 as frozen: a full turn whose original
`bot_filter_tag` is `"bot active"`; the persona-switch restart re-enters
with filter tag `"demo filter"`, not the original tag. -/
theorem restart_filter_tag_hardcoded :
    Event.advanceConvo "t1" "asst_it" "demo filter" "m1"
      ∈ advance_convo
        ⟨fun k => if k = "Italian_ASST" then some "asst_it" else none,
         true, true, true, true, fun _ => "completed"⟩
        (some ⟨"run1", "requires_action",
               [⟨"tc1", [("scenario", JVal.jstr "Italian")]⟩], []⟩)
        ⟨"t1", "a0", "bot active", "m1"⟩ ∧
    Event.advanceConvo "t1" "asst_it" "bot active" "m1"
      ∉ advance_convo
        ⟨fun k => if k = "Italian_ASST" then some "asst_it" else none,
         true, true, true, true, fun _ => "completed"⟩
        (some ⟨"run1", "requires_action",
               [⟨"tc1", [("scenario", JVal.jstr "Italian")]⟩], []⟩)
        ⟨"t1", "a0", "bot active", "m1"⟩ := by
  decide

/-- Witness for `persona_switch_restart_params` at a concrete switch. -/
theorem persona_switch_restart_params_witness :
    Event.advanceConvo "t9" "asst_menu" "demo filter" "m9"
      ∈ change_assistant
        ⟨fun k => if k = "mainMenu_ASST" then some "asst_menu" else none,
         true, true, true, true, fun _ => "completed"⟩
        [("scenario", JVal.jstr "mainMenu")] "t9" "m9" :=
  (persona_switch_restart_params
    ⟨fun k => if k = "mainMenu_ASST" then some "asst_menu" else none,
     true, true, true, true, fun _ => "completed"⟩
    [("scenario", JVal.jstr "mainMenu")] "mainMenu" "asst_menu" "t9" "m9"
    (by decide) (by decide) (by decide) rfl).1

/-- **C4** — The intended `end_automation` behaviour versus the shipped
dispatch. First part: `end_bot` itself attempts both the remove-tag and
the add-tag call for every oracle — in particular when the first call
fails (`removeOk = false`), since the ManyChat client never raises.
Second part: the dispatcher as shipped never performs any tag call at all,
whatever the tool-call arguments — its `endDemo` branch invokes the
undefined name `end_demo` (the defined function is `end_bot`), raising
`NameError`, which the enclosing handler logs. Third part: the concrete
failing input, showing the full trace — the error log and no tag calls. -/
theorem end_automation_dispatch_never_tags :
    (∀ (o : Oracle) (m : String),
      Event.removeTag m "demo filter" ∈ end_bot o m ∧
      Event.addTag m "disable auto message" ∈ end_bot o m) ∧
    (∀ (o : Oracle) (toolCalls : List ToolCall) (t r m : String),
      countTagCalls (process_function_response o toolCalls t r m) = 0) ∧
    process_function_response
        ⟨fun _ => none, true, true, true, true, fun _ => "completed"⟩
        [⟨"call_9", [("endDemo", JVal.jbool true)]⟩] "t1" "r1" "m1"
      = [Event.submitToolOutputs "t1" "r1" "call_9" "success",
         Event.sleepSec 5, Event.checkStatus "t1" "r1" "completed",
         Event.logInfo "Function status check",
         Event.logError "Error processing function response"] := by
  refine ⟨fun o m => ?_, fun o toolCalls t r m => ?_, by decide⟩
  · unfold end_bot
    cases o.removeOk <;> cases o.addOk <;> simp
  · cases toolCalls with
    | nil => simp [process_function_response, countTagCalls]
    | cons tc rest =>
      have hsub := counts_cons_submit t r tc.id "success"
        ((action_wait_loop o t r 0 6).1 ++
          (if !(action_wait_loop o t r 0 6).2 then
            [Event.logError "Function did not complete after 6 attempts"]
          else if hasKey tc.args "scenario" then change_assistant o tc.args t m
          else if hasKey tc.args "endDemo" then
            [Event.logError "Error processing function response"]
          else [Event.logError "Unknown function response"]))
      rw [pfr_cons, hsub.2.2.2, countTagCalls_append,
        (wait_loop_counts o t r 6 0).2.1]
      have hbr : countTagCalls
          (if !(action_wait_loop o t r 0 6).2 then
            [Event.logError "Function did not complete after 6 attempts"]
          else if hasKey tc.args "scenario" then change_assistant o tc.args t m
          else if hasKey tc.args "endDemo" then
            [Event.logError "Error processing function response"]
          else [Event.logError "Unknown function response"]) = 0 := by
        cases hP : (action_wait_loop o t r 0 6).2 with
        | false => simp [countTagCalls]
        | true =>
          by_cases h1 : hasKey tc.args "scenario"
          · simpa [h1] using (change_assistant_counts o tc.args t m).2.2.2.1
          · by_cases h2 : hasKey tc.args "endDemo" <;>
              simp [h1, h2, countTagCalls]
      rw [hbr]

/-- **C5 (amended)** — The dispatcher decodes exactly the first tool
call's JSON arguments by key inspection: a `scenario` key (checked first)
selects the persona switch, otherwise an `endDemo` key selects the
automation shutdown, and any other shape — including an `endBot` key —
falls to the unknown branch, which only logs an error and executes no
action. Only the first tool call matters: the dispatcher's behaviour on
`tc :: rest` equals its behaviour on `[tc]`. (As frozen, the claim said
an `endBot` key also selects the shutdown; the code never tests
`"endBot"` — see `decode_endBot_not_end_automation`.) -/
theorem decode_action_dispatch (args : JObj) (o : Oracle) (tc : ToolCall)
    (rest : List ToolCall) (t r m : String) :
    (hasKey args "scenario" = true → decode_action args = .switch_persona) ∧
    (hasKey args "scenario" = false → hasKey args "endDemo" = true →
      decode_action args = .end_automation) ∧
    (hasKey args "scenario" = false → hasKey args "endDemo" = false →
      decode_action args = .unknown) ∧
    (process_function_response o (tc :: rest) t r m
      = process_function_response o [tc] t r m) ∧
    (hasKey tc.args "scenario" = false → hasKey tc.args "endDemo" = false →
      (action_wait_loop o t r 0 6).2 = true →
      process_function_response o (tc :: rest) t r m
        = Event.submitToolOutputs t r tc.id "success" ::
          ((action_wait_loop o t r 0 6).1
            ++ [Event.logError "Unknown function response"])) := by
  refine ⟨fun h1 => by simp [decode_action, h1],
    fun h1 h2 => by simp [decode_action, h1, h2],
    fun h1 h2 => by simp [decode_action, h1, h2],
    rfl,
    fun h1 h2 hok => ?_⟩
  rw [pfr_cons]
  simp [h1, h2, hok]

/-- Counterexample to C5 as frozen: arguments whose only key is `endBot`
decode to `unknown`, not to `end_automation`. -/
theorem decode_endBot_not_end_automation :
    decode_action [("endBot", JVal.jbool true)] = ActionKind.unknown ∧
    decode_action [("endBot", JVal.jbool true)] ≠ ActionKind.end_automation := by
  decide

/-- Witness for `decode_action_dispatch` on the three argument shapes. -/
theorem decode_action_dispatch_witness :
    decode_action [("scenario", JVal.jstr "Italian")] = ActionKind.switch_persona ∧
    decode_action [("endDemo", JVal.jbool true)] = ActionKind.end_automation ∧
    decode_action [("somethingElse", JVal.jnum 1)] = ActionKind.unknown := by
  refine ⟨?_, ?_, ?_⟩
  · exact (decode_action_dispatch [("scenario", JVal.jstr "Italian")]
      ⟨fun _ => none, true, true, true, true, fun _ => "completed"⟩
      ⟨"c", []⟩ [] "t" "r" "m").1 (by decide)
  · exact (decode_action_dispatch [("endDemo", JVal.jbool true)]
      ⟨fun _ => none, true, true, true, true, fun _ => "completed"⟩
      ⟨"c", []⟩ [] "t" "r" "m").2.1 (by decide) (by decide)
  · exact (decode_action_dispatch [("somethingElse", JVal.jnum 1)]
      ⟨fun _ => none, true, true, true, true, fun _ => "completed"⟩
      ⟨"c", []⟩ [] "t" "r" "m").2.2.1 (by decide) (by decide)

/-! ## The ManyChat client's return contract -/

theorem manychat_post_request_spec (r : HttpResult) :
    ((∃ d, ManychatAPI_request "POST" r = some d) ↔
      ∃ code d, r = .response true code (some d) ∧ d.status = some "success") ∧
    (∀ code d, r = .response true code (some d) → d.status = some "success" →
      ManychatAPI_request "POST" r = some d) := by
  constructor
  · constructor
    · rintro ⟨d, hd⟩
      cases r with
      | transportError => simp [ManychatAPI_request] at hd
      | response ok code data =>
        cases ok with
        | false => simp [ManychatAPI_request] at hd
        | true =>
          cases data with
          | none => simp [ManychatAPI_request] at hd
          | some d2 =>
            by_cases hs : d2.status = some "success"
            · exact ⟨code, d2, rfl, hs⟩
            · simp [ManychatAPI_request, hs] at hd
    · rintro ⟨code, d, rfl, hs⟩
      exact ⟨d, by simp [ManychatAPI_request, hs]⟩
  · rintro code d rfl hs
    simp [ManychatAPI_request, hs]

/-- **C6 (amended)** — Every ManyChat operation returns the parsed
response payload on success and Python `None` on failure (not a boolean:
callers rely on truthiness only). The result is a payload exactly when
the HTTP call returned a 2xx response with a parseable body whose
embedded `status` field is `"success"` — so the falsy `None` is returned
exactly on a transport error, a non-2xx status, an unparseable body, or
an embedded non-success status. No operation raises to its caller: the
model is a total function into `Option RespData`, every error path of
`_request` being a caught exception that returns `None`. (As frozen, the
claim said a boolean is returned rather than the raw payload; the raw
payload is in fact returned — see `manychat_returns_payload_not_boolean`.) -/
theorem manychat_ops_contract :
    ∀ f ∈ [mc_send_message, mc_send_audio, mc_add_tag, mc_remove_tag,
           mc_set_custom_field],
      ∀ r : HttpResult,
        ((∃ d, f r = some d) ↔
          ∃ code d, r = .response true code (some d) ∧
            d.status = some "success") ∧
        (∀ code d, r = .response true code (some d) →
          d.status = some "success" → f r = some d) := by
  intro f hf r
  have hspec := manychat_post_request_spec r
  simp only [List.mem_cons, List.not_mem_nil, or_false] at hf
  rcases hf with rfl | rfl | rfl | rfl | rfl <;> exact hspec

/-- Counterexample to C6 as frozen: on two successful calls the operation
returns the two distinct raw payloads — the returned value is the parsed
response payload itself, not a boolean success indicator. -/
theorem manychat_returns_payload_not_boolean :
    mc_send_message (.response true 200 (some ⟨some "success", "payload A"⟩))
      = some ⟨some "success", "payload A"⟩ ∧
    mc_send_message (.response true 200 (some ⟨some "success", "payload B"⟩))
      = some ⟨some "success", "payload B"⟩ ∧
    some (⟨some "success", "payload A"⟩ : RespData)
      ≠ some (⟨some "success", "payload B"⟩ : RespData) := by
  decide

/-- Witness for `manychat_ops_contract` on a concrete successful call. -/
theorem manychat_ops_contract_witness :
    mc_add_tag (.response true 200 (some ⟨some "success", "ok"⟩))
      = some ⟨some "success", "ok"⟩ :=
  (manychat_ops_contract mc_add_tag (by simp)
    (.response true 200 (some ⟨some "success", "ok"⟩))).2
    200 ⟨some "success", "ok"⟩ rfl rfl

end IshyIG
